import Mathlib

/-!
# JT/T 808 gateway: a model of `server.go`

The file `server.go` holds the accept loop (`Serve`), the per-connection read
loop (`handleConnect`) and six message handlers (`termRegister`, `termAuth`,
`termHeartbeat`, `termLocationBatch`, `termPositionRepose`, `unknown`).

The wire codec (`g-jtt808`), the persistence services and the heartbeat store
are imported packages.  The handlers are modelled over them as parameters:
`Lib` for the codec calls, `Services` for the persistence calls.  Effects
(audit lines, console prints, heartbeat-store calls, socket reads and writes)
are collected, in program order, in a trace of `Effect` values.

Go functions that return `(value, error)` are modelled by pairs or by `Except`;
where the source uses both components of the pair the model keeps both.
-/

namespace Jtt808Gateway

/-- A byte string; every element stands for one `byte`. -/
abbrev Bytes := List Nat

/-- The Go `error` values the code tells apart: `io.EOF`,
`gorm.ErrRecordNotFound`, and any other error (identified by a code). -/
inductive GoError where
  | EOF
  | ErrRecordNotFound
  | other (code : Nat)
  deriving DecidableEq, Repr

/-! ## Library constants and message types -/

/-- Message ID `msgCom.TermRegister` (terminal registration, body `M0100`). -/
abbrev TermRegister : Nat := 0x0100
/-- Message ID `msgCom.TermAuth` (terminal authentication, body `M0102`). -/
abbrev TermAuth : Nat := 0x0102
/-- Message ID `msgCom.TermHeartbeat` (terminal heartbeat, empty body). -/
abbrev TermHeartbeat : Nat := 0x0002
/-- Message ID `msgCom.TermLocationRepose` (location report, body `M0200`). -/
abbrev TermLocationRepose : Nat := 0x0200
/-- Message ID `msgCom.TermLocationBatch` (location batch, body `M0704`). -/
abbrev TermLocationBatch : Nat := 0x0704
/-- Message ID `msgCom.TermRegResp` (registration response, body `M8100`). -/
abbrev TermRegResp : Nat := 0x8100
/-- Message ID `msgCom.PlatformCommResp` (platform general response, body `M8001`). -/
abbrev PlatformCommResp : Nat := 0x8001

/-- Result constants of the platform general response that the gateway uses:
`msg.M8001Success` and `msg.M8001Fail`. -/
inductive M8001Result where
  | M8001Success
  | M8001Fail
  deriving DecidableEq, Repr

/-- Result constants of the registration response that the gateway uses:
`msg.M8100Success` and `msg.M8100TermRegistered`. -/
inductive M8100Result where
  | M8100Success
  | M8100TermRegistered
  deriving DecidableEq, Repr

export M8001Result (M8001Success M8001Fail)
export M8100Result (M8100Success M8100TermRegistered)

/-- The value `uint8(res)` handed to the audit line; it keeps which of the two
result families the constant comes from. -/
inductive ResultCode where
  | general (r : M8001Result)
  | register (r : M8100Result)
  deriving DecidableEq, Repr

/-- Message header `msg.Head`: message ID, phone number and serial number, read
through `MsgID()`, `Phone()` and `SerialNum()`. -/
structure Head where
  MsgID : Nat
  Phone : String
  SerialNum : Nat
  deriving DecidableEq, Repr

/-- The Go zero value of `msg.Head`, as declared by `var msgRespH msg.Head`. -/
def Head.zero : Head := ⟨0, "", 0⟩

/-- Setter `(*Head).SetID`. -/
def Head.SetID (h : Head) (id : Nat) : Head := { h with MsgID := id }

/-- Setter `(*Head).SetPhone`. -/
def Head.SetPhone (h : Head) (p : String) : Head := { h with Phone := p }

/-- Body of the platform general response `msg.M8001`: the acknowledged
message ID, the acknowledged serial number and the result. -/
structure M8001 where
  MsgID : Nat
  SerialNumber : Nat
  Result : M8001Result
  deriving DecidableEq, Repr

/-- The Go zero value of `msg.M8001`. -/
def M8001.zero : M8001 := ⟨0, 0, M8001Success⟩

/-- Setter `M8001.SetMsgID`. -/
def M8001.SetMsgID (m : M8001) (id : Nat) : M8001 := { m with MsgID := id }

/-- Setter `M8001.SetSerialNumber`. -/
def M8001.SetSerialNumber (m : M8001) (s : Nat) : M8001 := { m with SerialNumber := s }

/-- Setter `M8001.SetResult`. -/
def M8001.SetResult (m : M8001) (r : M8001Result) : M8001 := { m with Result := r }

/-- Body of the registration response `msg.M8100`: the acknowledged serial
number, the result and the authentication token. -/
structure M8100 where
  SerialNumber : Nat
  Result : M8100Result
  Token : String
  deriving DecidableEq, Repr

/-- The Go zero value of `msg.M8100`. -/
def M8100.zero : M8100 := ⟨0, M8100Success, ""⟩

/-- Setter `M8100.SetToken`. -/
def M8100.SetToken (m : M8100) (t : String) : M8100 := { m with Token := t }

/-- Setter `M8100.SetSerialNumber`. -/
def M8100.SetSerialNumber (m : M8100) (s : Nat) : M8100 := { m with SerialNumber := s }

/-- Setter `M8100.SetResult`. -/
def M8100.SetResult (m : M8100) (r : M8100Result) : M8100 := { m with Result := r }

/-- Decoded registration body `msg.M0100` (kept as its body bytes). -/
structure M0100 where
  raw : Bytes
  deriving DecidableEq, Repr

/-- Decoded authentication body `msg.M0102` (kept as its body bytes). -/
structure M0102 where
  raw : Bytes
  deriving DecidableEq, Repr

/-- Decoded location body `msg.M0200` (kept as its body bytes). -/
structure M0200 where
  raw : Bytes
  deriving DecidableEq, Repr

/-- Decoded location-batch body `msg.M0704` (kept as its body bytes). -/
structure M0704 where
  raw : Bytes
  deriving DecidableEq, Repr

/-- The body of a platform message: one of the two response bodies. -/
inductive PlatBody where
  | m8001 (b : M8001)
  | m8100 (b : M8100)
  deriving DecidableEq, Repr

/-- A platform message: the pair built by `msg.NewPlantFormMsg(&head, body)`. -/
structure PlatMsg where
  head : Head
  body : PlatBody
  deriving DecidableEq, Repr

/-- Constructor `msg.NewPlantFormMsg`. -/
def NewPlantFormMsg (h : Head) (b : PlatBody) : PlatMsg := ⟨h, b⟩

/-- The calls into the codec library `g-jtt808` that `server.go` makes.
`DecodeHead` is `msg.NewTermMsg(&head, nil).Decode`; `DecodeM0100` and its
siblings are `msg.NewTermMsg(&head, &body).Decode` for the given body type;
`TermID` and `Token` are the body accessors; `Encode` is `PlantFormMsg.Encode`
and returns the Go pair of bytes and error. -/
structure Lib where
  ExtractMsgID : Bytes → Nat
  DecodeHead : Bytes → Except GoError Head
  DecodeM0100 : Bytes → Except GoError (Head × M0100)
  DecodeM0102 : Bytes → Except GoError (Head × M0102)
  DecodeM0200 : Bytes → Except GoError (Head × M0200)
  DecodeM0704 : Bytes → Except GoError (Head × M0704)
  TermID : M0100 → Except GoError String
  Token : M0102 → String × Option GoError
  Encode : PlatMsg → Bytes × Option GoError

/-- A platform record, of which the code reads `Host`. -/
structure Platform where
  Host : String
  deriving DecidableEq, Repr

/-- The persistence calls: the error returned by
`service.NewTerminal().GetBySN(termID)` and the pair returned by
`service.NewPlatform().All()`. -/
structure Services where
  GetBySN : String → Option GoError
  All : List Platform × Option GoError

/-! ## Effects -/

/-- Parameters of one audit line, `log.InfoFormatterParams`, without the wall
clock reading `Time`. -/
structure InfoFormatterParams where
  IP : String
  Phone : String
  Result : ResultCode
  MsgID : Bytes
  Data : Bytes
  deriving DecidableEq, Repr

/-- What is printed on the console by `fmt.Println` and `fmt.Printf`. -/
inductive Console where
  | error (e : GoError)
  | text (s : String)
  | disconnected (addr : String)
  deriving DecidableEq, Repr

/-- One observable effect of the server code. -/
inductive Effect where
  | audit (p : InfoFormatterParams)
  | print (c : Console)
  | heartBeatSet (key : String) (ttl : Nat)
  | read (n : Nat) (err : Option GoError)
  | write (b : Bytes)
  deriving DecidableEq, Repr

/-- What a handler hands back: the Go results `resp` and `err`, the effects it
performed, and for the proofs the platform message `mr` that it passed to
`Encode` (`none` when the handler returned before building it). -/
structure Reply where
  resp : Bytes
  err : Option GoError
  mr : Option PlatMsg
  effects : List Effect
  deriving DecidableEq, Repr

/-- The slice `b[1:3]` of a chunk `b` cut from a zeroed 1024-byte buffer. -/
def msgIDBytes (b : Bytes) : Bytes := ((b ++ [0, 0, 0]).drop 1).take 2

/-- Duration `time.Hour`, in nanoseconds. -/
abbrev Hour : Nat := 3600000000000

/-- Conversion `strconv.Itoa` on a non-negative integer. -/
def Itoa (n : Nat) : String := Nat.repr n

/-! ## The handlers -/

/-- Handler `termRegister` (terminal registration). -/
def termRegister (L : Lib) (S : Services) (addr : String) (b : Bytes) : Reply :=
  match L.DecodeM0100 b with
  | .error e => ⟨[], some e, none, []⟩
  | .ok (msgResH, msgResB) =>
    match L.TermID msgResB with
    | .error e => ⟨[], some e, none, []⟩
    | .ok termID =>
      let err := S.GetBySN termID
      if err ≠ some GoError.ErrRecordNotFound ∧ err ≠ none then ⟨[], err, none, []⟩
      else
        let res := if err = some GoError.ErrRecordNotFound then M8100TermRegistered
          else M8100TermRegistered
        let line := Effect.audit ⟨addr, msgResH.Phone, .register res, msgIDBytes b, b⟩
        let msgRespH := (Head.zero.SetID TermRegResp).SetPhone msgResH.Phone
        let msgRespB := ((M8100.zero.SetToken "123123").SetSerialNumber msgResH.SerialNum).SetResult res
        let mr := NewPlantFormMsg msgRespH (.m8100 msgRespB)
        ⟨(L.Encode mr).1, (L.Encode mr).2, some mr, [line]⟩

/-- Handler `termAuth` (terminal authentication). -/
def termAuth (L : Lib) (addr : String) (b : Bytes) : Reply :=
  match L.DecodeM0102 b with
  | .error e => ⟨[], some e, none, []⟩
  | .ok (msgResH, msgResB) =>
    let token := (L.Token msgResB).1
    let res := if token ≠ "123123" then M8001Fail else M8001Success
    let line := Effect.audit ⟨addr, msgResH.Phone, .general res, msgIDBytes b, b⟩
    let msgRespH := (Head.zero.SetID PlatformCommResp).SetPhone msgResH.Phone
    let msgRespB := ((M8001.zero.SetMsgID msgResH.MsgID).SetSerialNumber msgResH.SerialNum).SetResult res
    let mr := NewPlantFormMsg msgRespH (.m8001 msgRespB)
    ⟨(L.Encode mr).1, (L.Encode mr).2, some mr, [line]⟩

/-- Handler `termHeartbeat` (heartbeat). -/
def termHeartbeat (L : Lib) (addr : String) (b : Bytes) : Reply :=
  match L.DecodeHead b with
  | .error e => ⟨[], some e, none, []⟩
  | .ok msgResH =>
    let line := Effect.audit ⟨addr, msgResH.Phone, .general M8001Success, msgIDBytes b, b⟩
    let result := M8001Success
    let beat := Effect.heartBeatSet (Itoa msgResH.SerialNum) (Hour / 2)
    let msgRespH := (Head.zero.SetID PlatformCommResp).SetPhone msgResH.Phone
    let msgRespB := ((M8001.zero.SetMsgID msgResH.MsgID).SetSerialNumber msgResH.SerialNum).SetResult result
    let mr := NewPlantFormMsg msgRespH (.m8001 msgRespB)
    ⟨(L.Encode mr).1, (L.Encode mr).2, some mr, [line, beat]⟩

/-- Handler `termLocationBatch` (batch of location reports). -/
def termLocationBatch (L : Lib) (addr : String) (b : Bytes) : Reply :=
  match L.DecodeM0704 b with
  | .error e => ⟨[], some e, none, []⟩
  | .ok (msgResH, _) =>
    -- after the early return above `err` is nil, so the `res = M8001Fail` branch is not taken
    let res := M8001Success
    let line := Effect.audit ⟨addr, msgResH.Phone, .general res, msgIDBytes b, b⟩
    let msgRespH := (Head.zero.SetID PlatformCommResp).SetPhone msgResH.Phone
    let msgRespB := ((M8001.zero.SetMsgID msgResH.MsgID).SetSerialNumber msgResH.SerialNum).SetResult res
    let mr := NewPlantFormMsg msgRespH (.m8001 msgRespB)
    ⟨(L.Encode mr).1, (L.Encode mr).2, some mr, [line]⟩

/-- Handler `termPositionRepose` (location report). -/
def termPositionRepose (L : Lib) (S : Services) (addr : String) (b : Bytes) : Reply :=
  match L.DecodeM0200 b with
  | .error e => ⟨[], some e, none, []⟩
  | .ok (msgResH, _) =>
    -- after the early return above `err` is nil, so the first `res = M8001Fail` branch is not taken
    let res0 := M8001Success
    let platforms := S.All.1
    let res := match S.All.2 with
      | some _ => M8001Fail
      | none => res0
    let failed := match S.All.2 with
      | some e => [Effect.print (.error e)]
      | none => []
    let hosts := platforms.map fun p => Effect.print (.text p.Host)
    let line := Effect.audit ⟨addr, msgResH.Phone, .general res, msgIDBytes b, b⟩
    let msgRespH := (Head.zero.SetID PlatformCommResp).SetPhone msgResH.Phone
    let msgRespB := ((M8001.zero.SetMsgID msgResH.MsgID).SetSerialNumber msgResH.SerialNum).SetResult res
    let mr := NewPlantFormMsg msgRespH (.m8001 msgRespB)
    ⟨(L.Encode mr).1, (L.Encode mr).2, some mr, failed ++ hosts ++ [line]⟩

/-- Handler `unknown` (any other message ID). -/
def unknown (L : Lib) (addr : String) (b : Bytes) : Reply :=
  match L.DecodeHead b with
  | .error e => ⟨[], some e, none, []⟩
  | .ok msgResH =>
    let line := Effect.audit ⟨addr, msgResH.Phone, .general M8001Success, msgIDBytes b, b⟩
    let msgRespH := (Head.zero.SetID PlatformCommResp).SetPhone msgResH.Phone
    let msgRespB := ((M8001.zero.SetMsgID msgResH.MsgID).SetSerialNumber msgResH.SerialNum).SetResult M8001Success
    let mr := NewPlantFormMsg msgRespH (.m8001 msgRespB)
    ⟨(L.Encode mr).1, (L.Encode mr).2, some mr, [line]⟩

/-! ## The connection loop and the accept loop -/

/-- The `switch jtt808.ExtractMsgID(b)` of `handleConnect`. -/
def dispatch (L : Lib) (S : Services) (addr : String) (b : Bytes) : Reply :=
  let id := L.ExtractMsgID b
  if id = TermRegister then termRegister L S addr b
  else if id = TermAuth then termAuth L addr b
  else if id = TermHeartbeat then termHeartbeat L addr b
  else if id = TermLocationRepose then termPositionRepose L S addr b
  else if id = TermLocationBatch then termLocationBatch L addr b
  else unknown L addr b

/-- What the connection does in one turn of the read loop: the result of
`c.Read` (the chunk `b[:n]` and the error) and the error of the `c.Write` that
follows, if the loop gets to it. -/
structure Round where
  data : Bytes
  err : Option GoError
  writeErr : Option GoError
  deriving DecidableEq, Repr

/-- How a run of `handleConnect` ends on a finite script of rounds: it has
returned `err`, or it is in `c.Read` again, waiting past the end of the script. -/
inductive Exit where
  | returned (err : Option GoError)
  | reading
  deriving DecidableEq, Repr

/-- A run of `handleConnect`: how it ends and the trace of its effects. -/
structure Run where
  exit : Exit
  trace : List Effect
  deriving DecidableEq, Repr

/-- The console line for an error that is not nil (`if err != nil { fmt.Println(err) }`). -/
def printIfErr : Option GoError → List Effect
  | some e => [Effect.print (.error e)]
  | none => []

/-- The read loop `handleConnect` of a connection with remote address `addr`
that behaves as the script of rounds says. -/
def handleConnect (L : Lib) (S : Services) (addr : String) : List Round → Run
  | [] => ⟨.reading, []⟩
  | r :: rest =>
    let rd := Effect.read r.data.length r.err
    if r.err = some GoError.EOF then
      ⟨.returned (some GoError.EOF), [rd, Effect.print (.disconnected addr)]⟩
    else if r.data.length = 0 then
      let k := handleConnect L S addr rest
      ⟨k.exit, rd :: printIfErr r.err ++ k.trace⟩
    else
      let rep := dispatch L S addr r.data
      let k := handleConnect L S addr rest
      ⟨k.exit, rd :: printIfErr r.err ++ rep.effects ++ printIfErr rep.err
        ++ [Effect.write rep.resp] ++ printIfErr r.writeErr ++ k.trace⟩

/-- A value passed to `panic`, or the runtime panic of a method call on a nil
interface value. -/
inductive PanicValue where
  | error (e : GoError)
  | nilDereference
  deriving DecidableEq, Repr

/-- The goroutine body of `Serve`: run `handleConnect`, panic when it returns an
error that is not nil.  The result is the panic, if there is one. -/
def worker (L : Lib) (S : Services) (addr : String) (script : List Round) : Option PanicValue :=
  match (handleConnect L S addr script).exit with
  | .returned (some e) => some (.error e)
  | .returned none => none
  | .reading => none

/-- One result of `l.Accept()`: an error, or a connection given by its remote
address and its script. -/
inductive Accepted where
  | failed (e : GoError)
  | conn (addr : String) (script : List Round)
  deriving DecidableEq, Repr

/-- How `Serve` ends on a finite list of accept results: the process has
panicked, or the accept loop is waiting in `l.Accept()`. -/
inductive ServeExit where
  | panicked (v : PanicValue)
  | accepting
  deriving DecidableEq, Repr

/-- The accept loop of `Serve`: an accept error makes `c.RemoteAddr()` panic on
the nil connection; a panic of a worker goroutine ends the process. -/
def acceptLoop (L : Lib) (S : Services) : List Accepted → ServeExit
  | [] => .accepting
  | .failed _ :: _ => .panicked .nilDereference
  | .conn addr script :: rest =>
    match worker L S addr script with
    | some v => .panicked v
    | none => acceptLoop L S rest

/-- The method `Serve`: panic when `net.Listen` fails, else run the accept loop. -/
def Serve (L : Lib) (S : Services) (listenErr : Option GoError) (accepts : List Accepted) : ServeExit :=
  match listenErr with
  | some e => .panicked (.error e)
  | none => acceptLoop L S accepts

/-! ## A sample codec

The theorems below hold for every codec `L : Lib`.  To run the model on
concrete frames, `sampleLib` is one codec: it reads and writes the frame layout
`0x7E header body checksum 0x7E` with a 12-byte header (message ID, body
attributes, BCD phone number, serial number, all big-endian) and an XOR
checksum, without byte stuffing. -/

/-- XOR of all bytes. -/
def xorAll (bs : Bytes) : Nat := bs.foldl Nat.xor 0

/-- The character of a BCD digit. -/
def digitChar : Nat → Char
  | 0 => '0' | 1 => '1' | 2 => '2' | 3 => '3' | 4 => '4'
  | 5 => '5' | 6 => '6' | 7 => '7' | 8 => '8' | 9 => '9'
  | _ => '?'

/-- The string of a BCD field: two decimal digits per byte. -/
def bcdString (bs : Bytes) : String :=
  String.mk (bs.flatMap fun x => [digitChar (x / 16), digitChar (x % 16)])

/-- Two decimal digits per byte, the first in the high nibble. -/
def packDigits : List Nat → Bytes
  | a :: b :: rest => (a * 16 + b) :: packDigits rest
  | [a] => [a * 16]
  | [] => []

/-- The BCD field of a string of decimal digits. -/
def bcdBytes (s : String) : Bytes := packDigits (s.data.map fun c => c.toNat - 48)

/-- The string of an ASCII field. -/
def asciiString (bs : Bytes) : String := String.mk (bs.map Char.ofNat)

/-- The ASCII field of a string. -/
def asciiBytes (s : String) : Bytes := s.data.map Char.toNat

/-- Big-endian 16-bit field. -/
def be16 (n : Nat) : Bytes := [n / 256 % 256, n % 256]

/-- Splits a frame into its header and its body bytes.  Errors: `other 1` for
missing delimiters, `other 2` for a checksum mismatch, `other 3` for a short
header, `other 4` for a body length that differs from the body attributes. -/
def unframe (b : Bytes) : Except GoError (Head × Bytes) :=
  match b with
  | [] => .error (.other 1)
  | first :: rest =>
    match rest.reverse with
    | last :: sum :: rp =>
      if first ≠ 0x7E ∨ last ≠ 0x7E then .error (.other 1)
      else if xorAll rp.reverse ≠ sum then .error (.other 2)
      else
        match rp.reverse with
        | i1 :: i0 :: a1 :: a0 :: p0 :: p1 :: p2 :: p3 :: p4 :: p5 :: s1 :: s0 :: body =>
          if (a1 * 256 + a0) % 1024 ≠ body.length then .error (.other 4)
          else .ok (⟨i1 * 256 + i0, bcdString [p0, p1, p2, p3, p4, p5], s1 * 256 + s0⟩, body)
        | _ => .error (.other 3)
    | _ => .error (.other 1)

/-- The frame around a payload: delimiters and checksum. -/
def frame (payload : Bytes) : Bytes := 0x7E :: payload ++ [xorAll payload, 0x7E]

/-- The body bytes of a platform message. -/
def bodyBytes : PlatBody → Bytes
  | .m8001 b => be16 b.SerialNumber ++ be16 b.MsgID ++
      [match b.Result with | .M8001Success => 0 | .M8001Fail => 1]
  | .m8100 b => be16 b.SerialNumber ++
      [match b.Result with | .M8100Success => 0 | .M8100TermRegistered => 3] ++ asciiBytes b.Token

/-- The frame of a platform message. -/
def sampleEncode (m : PlatMsg) : Bytes :=
  frame (be16 m.head.MsgID ++ be16 (bodyBytes m.body).length ++ bcdBytes m.head.Phone
    ++ be16 m.head.SerialNum ++ bodyBytes m.body)

/-- The sample codec.  A registration body is the terminal ID in ASCII (an empty
one is an error of `TermID`), an authentication body is the token in ASCII. -/
def sampleLib : Lib where
  ExtractMsgID b := b.getD 1 0 * 256 + b.getD 2 0
  DecodeHead b := (unframe b).map Prod.fst
  DecodeM0100 b := (unframe b).map fun p => (p.1, ⟨p.2⟩)
  DecodeM0102 b := (unframe b).map fun p => (p.1, ⟨p.2⟩)
  DecodeM0200 b := (unframe b).map fun p => (p.1, ⟨p.2⟩)
  DecodeM0704 b := (unframe b).map fun p => (p.1, ⟨p.2⟩)
  TermID m := if m.raw = [] then .error (.other 5) else .ok (asciiString m.raw)
  Token m := (asciiString m.raw, none)
  Encode m := (sampleEncode m, none)

/-- Persistence services of a deployment with one known terminal, `"T1"`, and
one platform. -/
def sampleServices : Services where
  GetBySN sn := if sn = "T1" then none else some GoError.ErrRecordNotFound
  All := ([⟨"10.0.0.9"⟩], none)

/-- Persistence services whose database is down: every call fails. -/
def brokenServices : Services where
  GetBySN _ := some (GoError.other 7)
  All := ([], some (GoError.other 7))

/-- Persistence services whose terminal lookup fails while the platform list
is served. -/
def lookupDownServices : Services where
  GetBySN _ := some (GoError.other 7)
  All := ([⟨"10.0.0.9"⟩], none)

/-- Persistence services whose platform list fails while the terminal lookup
is served. -/
def listDownServices : Services where
  GetBySN sn := if sn = "T1" then none else some GoError.ErrRecordNotFound
  All := ([], some (GoError.other 7))

/-- A terminal frame in the layout of `sampleLib`. -/
def termFrame (id : Nat) (phone : String) (serial : Nat) (body : Bytes) : Bytes :=
  frame (be16 id ++ be16 body.length ++ bcdBytes phone ++ be16 serial ++ body)

/-- A frame whose checksum byte is wrong (its lowest bit is flipped). -/
def corruptFrame (id : Nat) (phone : String) (serial : Nat) (body : Bytes) : Bytes :=
  let payload := be16 id ++ be16 body.length ++ bcdBytes phone ++ be16 serial ++ body
  0x7E :: payload ++ [Nat.xor (xorAll payload) 1, 0x7E]

/-! ## Observations used in the statements -/

/-- The acknowledged serial number carried in the body of a platform message. -/
def PlatBody.ackSerial : PlatBody → Nat
  | .m8001 b => b.SerialNumber
  | .m8100 b => b.SerialNumber

/-- The six handlers of `server.go`. -/
inductive Handler where
  | termRegister
  | termAuth
  | termHeartbeat
  | termPositionRepose
  | termLocationBatch
  | unknown
  deriving DecidableEq, Repr

/-- Runs the named handler. -/
def Handler.run (k : Handler) (L : Lib) (S : Services) (addr : String) (b : Bytes) : Reply :=
  match k with
  | .termRegister => Jtt808Gateway.termRegister L S addr b
  | .termAuth => Jtt808Gateway.termAuth L addr b
  | .termHeartbeat => Jtt808Gateway.termHeartbeat L addr b
  | .termPositionRepose => Jtt808Gateway.termPositionRepose L S addr b
  | .termLocationBatch => Jtt808Gateway.termLocationBatch L addr b
  | .unknown => Jtt808Gateway.unknown L addr b

/-- The request header that the decoding step of the named handler yields. -/
def Handler.requestHead (k : Handler) (L : Lib) (b : Bytes) : Except GoError Head :=
  match k with
  | .termRegister => (L.DecodeM0100 b).map Prod.fst
  | .termAuth => (L.DecodeM0102 b).map Prod.fst
  | .termHeartbeat => L.DecodeHead b
  | .termPositionRepose => (L.DecodeM0200 b).map Prod.fst
  | .termLocationBatch => (L.DecodeM0704 b).map Prod.fst
  | .unknown => L.DecodeHead b

/-- Tells the socket effects (`c.Read`, `c.Write`) from the others. -/
def Effect.isSocket : Effect → Bool
  | .read _ _ => true
  | .write _ => true
  | _ => false

/-- Tells the heartbeat-store effects from the others. -/
def Effect.isHeartBeat : Effect → Bool
  | .heartBeatSet _ _ => true
  | _ => false

/-! ## Sample frames -/

/-- Registration frame of terminal `"T1"`, phone `"013912345678"`, serial 7. -/
def registerFrame : Bytes := termFrame TermRegister "013912345678" 7 (asciiBytes "T1")

/-- Authentication frame carrying the token `"123123"`, serial 8. -/
def authFrame : Bytes := termFrame TermAuth "013912345678" 8 (asciiBytes "123123")

/-- Authentication frame carrying the token `"000000"`, serial 9. -/
def authFrameWrongToken : Bytes := termFrame TermAuth "013912345678" 9 (asciiBytes "000000")

/-- Heartbeat frame of phone `"013912345678"` with the given serial number. -/
def heartbeatFrame (serial : Nat) : Bytes := termFrame TermHeartbeat "013912345678" serial []

/-- Heartbeat frame of another terminal, phone `"013900000001"`. -/
def otherHeartbeatFrame (serial : Nat) : Bytes := termFrame TermHeartbeat "013900000001" serial []

/-- Location report frame, serial 11. -/
def locationFrame : Bytes := termFrame TermLocationRepose "013912345678" 11 [0, 0, 0, 0]

/-- Location batch frame, serial 12. -/
def locationBatchFrame : Bytes := termFrame TermLocationBatch "013912345678" 12 [0, 1, 0]

/-- Frame with message ID `0x0003`, which has no handler of its own; serial 13. -/
def logoutFrame : Bytes := termFrame 0x0003 "013912345678" 13 []

/-- A reply is well formed for the codec `L`: its effects leave the socket
alone, and its bytes and error are those of `L.Encode` on the message it built,
or empty bytes and an error when it built none. -/
def Reply.WellFormed (L : Lib) (rep : Reply) : Prop :=
  rep.effects.filter Effect.isSocket = [] ∧
  (rep.mr = none → rep.resp = [] ∧ rep.err ≠ none) ∧
  (∀ m : PlatMsg, rep.mr = some m → rep.resp = (L.Encode m).1 ∧ rep.err = (L.Encode m).2)

/-- The sample script of a short session: a read error that is not `io.EOF`
with no data, then a heartbeat with serial number 5. -/
def readErrorScript : List Round :=
  [⟨[], some (GoError.other 9), none⟩, ⟨heartbeatFrame 5, none, none⟩]

/-- The sample script of a terminal that sends one heartbeat and disconnects. -/
def disconnectScript : List Round :=
  [⟨heartbeatFrame 1, none, none⟩, ⟨[], some GoError.EOF, none⟩]

/-! ## Registration -/

/-- Claim C1. When `termRegister` decodes a registration frame, reads its
terminal ID and the lookup `GetBySN` either finds the terminal (service `S`) or
reports record-not-found (service `T`), it returns the encoding of a platform
message whose header has message ID `TermRegResp` and the phone number of the
request and whose body has result `M8100TermRegistered`, token `"123123"` and
the serial number of the request; the reply is the same in both cases. -/
theorem termRegister_registered (L : Lib) (S T : Services) (addr : String) (b : Bytes)
    (h : Head) (body : M0100) (sn : String)
    (hdec : L.DecodeM0100 b = .ok (h, body)) (hid : L.TermID body = .ok sn)
    (hfound : S.GetBySN sn = none) (hmiss : T.GetBySN sn = some GoError.ErrRecordNotFound) :
    ∃ (m : PlatMsg) (r : M8100),
      (termRegister L S addr b).mr = some m ∧
      (termRegister L S addr b).resp = (L.Encode m).1 ∧
      (termRegister L S addr b).err = (L.Encode m).2 ∧
      termRegister L T addr b = termRegister L S addr b ∧
      m.head.MsgID = TermRegResp ∧ m.head.Phone = h.Phone ∧
      m.body = .m8100 r ∧ r.Result = M8100TermRegistered ∧ r.Token = "123123" ∧
      r.SerialNumber = h.SerialNum := by
  refine ⟨⟨⟨TermRegResp, h.Phone, 0⟩, .m8100 ⟨h.SerialNum, M8100TermRegistered, "123123"⟩⟩,
    ⟨h.SerialNum, M8100TermRegistered, "123123"⟩, ?_⟩
  simp [termRegister, hdec, hid, hfound, hmiss, NewPlantFormMsg, Head.zero, Head.SetID,
    Head.SetPhone, M8100.zero, M8100.SetToken, M8100.SetSerialNumber, M8100.SetResult]

/-- Witness of C1 on the registration frame of terminal `"T1"`: found by
`sampleServices`, not found by a service that knows no terminal. -/
theorem termRegister_registered_witness :
    sampleLib.DecodeM0100 registerFrame = .ok (⟨TermRegister, "013912345678", 7⟩, ⟨[84, 49]⟩) ∧
    sampleLib.TermID ⟨[84, 49]⟩ = .ok "T1" ∧
    sampleServices.GetBySN "T1" = none ∧
    (∃ (m : PlatMsg) (r : M8100),
      (termRegister sampleLib sampleServices "10.0.0.1:9000" registerFrame).mr = some m ∧
      (termRegister sampleLib sampleServices "10.0.0.1:9000" registerFrame).resp
        = (sampleLib.Encode m).1 ∧
      (termRegister sampleLib sampleServices "10.0.0.1:9000" registerFrame).err
        = (sampleLib.Encode m).2 ∧
      termRegister sampleLib ⟨fun _ => some GoError.ErrRecordNotFound, ([], none)⟩
          "10.0.0.1:9000" registerFrame
        = termRegister sampleLib sampleServices "10.0.0.1:9000" registerFrame ∧
      m.head.MsgID = TermRegResp ∧ m.head.Phone = "013912345678" ∧
      m.body = .m8100 r ∧ r.Result = M8100TermRegistered ∧ r.Token = "123123" ∧
      r.SerialNumber = 7) :=
  ⟨rfl, rfl, rfl,
    termRegister_registered sampleLib sampleServices
      ⟨fun _ => some GoError.ErrRecordNotFound, ([], none)⟩ "10.0.0.1:9000" registerFrame
      ⟨TermRegister, "013912345678", 7⟩ ⟨[84, 49]⟩ "T1" rfl rfl rfl rfl⟩

/-! ## Authentication -/

/-- Claim C2. When `termAuth` decodes an authentication frame, the platform
general response it encodes has result `M8001Success` exactly when the token of
the request body equals `"123123"` and `M8001Fail` for every other token, and
its body carries the message ID and the serial number of the request. -/
theorem termAuth_result (L : Lib) (addr : String) (b : Bytes) (h : Head) (body : M0102)
    (hdec : L.DecodeM0102 b = .ok (h, body)) :
    ∃ (m : PlatMsg) (r : M8001),
      (termAuth L addr b).mr = some m ∧
      (termAuth L addr b).resp = (L.Encode m).1 ∧
      (termAuth L addr b).err = (L.Encode m).2 ∧
      m.head.MsgID = PlatformCommResp ∧ m.body = .m8001 r ∧
      (r.Result = M8001Success ↔ (L.Token body).1 = "123123") ∧
      (r.Result = M8001Fail ↔ (L.Token body).1 ≠ "123123") ∧
      r.MsgID = h.MsgID ∧ r.SerialNumber = h.SerialNum := by
  by_cases htok : (L.Token body).1 = "123123"
  · refine ⟨⟨⟨PlatformCommResp, h.Phone, 0⟩, .m8001 ⟨h.MsgID, h.SerialNum, M8001Success⟩⟩,
      ⟨h.MsgID, h.SerialNum, M8001Success⟩, ?_⟩
    simp [termAuth, hdec, htok, NewPlantFormMsg, Head.zero, Head.SetID, Head.SetPhone,
      M8001.zero, M8001.SetMsgID, M8001.SetSerialNumber, M8001.SetResult]
  · refine ⟨⟨⟨PlatformCommResp, h.Phone, 0⟩, .m8001 ⟨h.MsgID, h.SerialNum, M8001Fail⟩⟩,
      ⟨h.MsgID, h.SerialNum, M8001Fail⟩, ?_⟩
    simp [termAuth, hdec, htok, NewPlantFormMsg, Head.zero, Head.SetID, Head.SetPhone,
      M8001.zero, M8001.SetMsgID, M8001.SetSerialNumber, M8001.SetResult]

/-- Witness of C2 on the authentication frame that carries `"123123"`. -/
theorem termAuth_result_witness :
    sampleLib.DecodeM0102 authFrame
      = .ok (⟨TermAuth, "013912345678", 8⟩, ⟨[49, 50, 51, 49, 50, 51]⟩) ∧
    (∃ (m : PlatMsg) (r : M8001),
      (termAuth sampleLib "10.0.0.1:9000" authFrame).mr = some m ∧
      (termAuth sampleLib "10.0.0.1:9000" authFrame).resp = (sampleLib.Encode m).1 ∧
      (termAuth sampleLib "10.0.0.1:9000" authFrame).err = (sampleLib.Encode m).2 ∧
      m.head.MsgID = PlatformCommResp ∧ m.body = .m8001 r ∧
      (r.Result = M8001Success ↔ (sampleLib.Token ⟨[49, 50, 51, 49, 50, 51]⟩).1 = "123123") ∧
      (r.Result = M8001Fail ↔ (sampleLib.Token ⟨[49, 50, 51, 49, 50, 51]⟩).1 ≠ "123123") ∧
      r.MsgID = TermAuth ∧ r.SerialNumber = 8) :=
  ⟨rfl, termAuth_result sampleLib "10.0.0.1:9000" authFrame ⟨TermAuth, "013912345678", 8⟩
    ⟨[49, 50, 51, 49, 50, 51]⟩ rfl⟩

/-- The two tokens of the authentication scenario: `"123123"` is answered with
`M8001Success`, `"000000"` with `M8001Fail`. -/
theorem termAuth_scenario :
    (termAuth sampleLib "10.0.0.1:9000" authFrame).mr
      = some ⟨⟨PlatformCommResp, "013912345678", 0⟩, .m8001 ⟨TermAuth, 8, M8001Success⟩⟩ ∧
    (termAuth sampleLib "10.0.0.1:9000" authFrameWrongToken).mr
      = some ⟨⟨PlatformCommResp, "013912345678", 0⟩, .m8001 ⟨TermAuth, 9, M8001Fail⟩⟩ :=
  ⟨rfl, rfl⟩

/-! ## Serial numbers -/

/-- Counterexample to C3 as stated. The heartbeat frame with serial number 5 is
accepted, and the header of the response handed to the encoder has serial
number 0, not 5: the handler sets the ID and the phone of the response header
and nothing else.  The encoded bytes show the same (header serial `0, 0`, then
the body with the acknowledged serial `0, 5`). -/
theorem response_head_serial_counterexample :
    sampleLib.DecodeHead (heartbeatFrame 5) = .ok ⟨TermHeartbeat, "013912345678", 5⟩ ∧
    (termHeartbeat sampleLib "10.0.0.1:9000" (heartbeatFrame 5)).mr
      = some ⟨⟨PlatformCommResp, "013912345678", 0⟩, .m8001 ⟨TermHeartbeat, 5, M8001Success⟩⟩ ∧
    (termHeartbeat sampleLib "10.0.0.1:9000" (heartbeatFrame 5)).resp
      = [0x7E, 0x80, 0x01, 0, 5, 0x01, 0x39, 0x12, 0x34, 0x56, 0x78, 0, 0, 0, 5, 0, 2, 0, 179, 0x7E] ∧
    ¬ (∀ (L : Lib) (addr : String) (b : Bytes) (h : Head) (m : PlatMsg),
        L.DecodeHead b = .ok h → (termHeartbeat L addr b).mr = some m →
        m.head.SerialNum = h.SerialNum) := by
  refine ⟨rfl, rfl, rfl, ?_⟩
  intro hall
  have h5 := hall sampleLib "10.0.0.1:9000" (heartbeatFrame 5)
    ⟨TermHeartbeat, "013912345678", 5⟩
    ⟨⟨PlatformCommResp, "013912345678", 0⟩, .m8001 ⟨TermHeartbeat, 5, M8001Success⟩⟩ rfl rfl
  exact absurd h5 (by decide)

/-- Claim C3, amended. For each of the six handlers and every frame it accepts
whose header carries serial number `S`, the response carries `S` in its body, as
the acknowledged serial number; the serial number of the response header is
left at zero. -/
theorem response_body_serial (k : Handler) (L : Lib) (S : Services) (addr : String)
    (b : Bytes) (h : Head) (m : PlatMsg)
    (hreq : k.requestHead L b = .ok h) (hresp : (k.run L S addr b).mr = some m) :
    m.body.ackSerial = h.SerialNum ∧ m.head.SerialNum = 0 := by
  cases k
  · -- termRegister
    simp only [Handler.requestHead, Handler.run] at hreq hresp
    cases hd : L.DecodeM0100 b with
    | error e => simp [hd, Except.map] at hreq
    | ok p =>
      obtain ⟨h0, body⟩ := p
      simp only [hd, Except.map, Except.ok.injEq] at hreq
      subst hreq
      cases ht : L.TermID body with
      | error e => simp [termRegister, hd, ht] at hresp
      | ok sn =>
        by_cases hg : S.GetBySN sn ≠ some GoError.ErrRecordNotFound ∧ S.GetBySN sn ≠ none
        · simp [termRegister, hd, ht, hg] at hresp
        · simp only [termRegister, hd, ht, hg, if_false, Option.some.injEq] at hresp
          subst hresp
          simp [NewPlantFormMsg, PlatBody.ackSerial, Head.zero, Head.SetID, Head.SetPhone,
            M8100.zero, M8100.SetToken, M8100.SetSerialNumber, M8100.SetResult]
  · -- termAuth
    simp only [Handler.requestHead, Handler.run] at hreq hresp
    cases hd : L.DecodeM0102 b with
    | error e => simp [hd, Except.map] at hreq
    | ok p =>
      obtain ⟨h0, body⟩ := p
      simp only [hd, Except.map, Except.ok.injEq] at hreq
      subst hreq
      simp only [termAuth, hd, Option.some.injEq] at hresp
      subst hresp
      simp [NewPlantFormMsg, PlatBody.ackSerial, Head.zero, Head.SetID, Head.SetPhone,
        M8001.zero, M8001.SetMsgID, M8001.SetSerialNumber, M8001.SetResult]
  · -- termHeartbeat
    simp only [Handler.requestHead, Handler.run] at hreq hresp
    simp only [termHeartbeat, hreq, Option.some.injEq] at hresp
    subst hresp
    simp [NewPlantFormMsg, PlatBody.ackSerial, Head.zero, Head.SetID, Head.SetPhone,
      M8001.zero, M8001.SetMsgID, M8001.SetSerialNumber, M8001.SetResult]
  · -- termPositionRepose
    simp only [Handler.requestHead, Handler.run] at hreq hresp
    cases hd : L.DecodeM0200 b with
    | error e => simp [hd, Except.map] at hreq
    | ok p =>
      obtain ⟨h0, body⟩ := p
      simp only [hd, Except.map, Except.ok.injEq] at hreq
      subst hreq
      simp only [termPositionRepose, hd, Option.some.injEq] at hresp
      subst hresp
      simp [NewPlantFormMsg, PlatBody.ackSerial, Head.zero, Head.SetID, Head.SetPhone,
        M8001.zero, M8001.SetMsgID, M8001.SetSerialNumber, M8001.SetResult]
  · -- termLocationBatch
    simp only [Handler.requestHead, Handler.run] at hreq hresp
    cases hd : L.DecodeM0704 b with
    | error e => simp [hd, Except.map] at hreq
    | ok p =>
      obtain ⟨h0, body⟩ := p
      simp only [hd, Except.map, Except.ok.injEq] at hreq
      subst hreq
      simp only [termLocationBatch, hd, Option.some.injEq] at hresp
      subst hresp
      simp [NewPlantFormMsg, PlatBody.ackSerial, Head.zero, Head.SetID, Head.SetPhone,
        M8001.zero, M8001.SetMsgID, M8001.SetSerialNumber, M8001.SetResult]
  · -- unknown
    simp only [Handler.requestHead, Handler.run] at hreq hresp
    simp only [unknown, hreq, Option.some.injEq] at hresp
    subst hresp
    simp [NewPlantFormMsg, PlatBody.ackSerial, Head.zero, Head.SetID, Head.SetPhone,
      M8001.zero, M8001.SetMsgID, M8001.SetSerialNumber, M8001.SetResult]

/-- Witness of the amended C3 on the registration frame with serial number 7. -/
theorem response_body_serial_witness :
    Handler.termRegister.requestHead sampleLib registerFrame
      = .ok ⟨TermRegister, "013912345678", 7⟩ ∧
    (Handler.termRegister.run sampleLib sampleServices "10.0.0.1:9000" registerFrame).mr
      = some ⟨⟨TermRegResp, "013912345678", 0⟩, .m8100 ⟨7, M8100TermRegistered, "123123"⟩⟩ ∧
    (PlatBody.m8100 ⟨7, M8100TermRegistered, "123123"⟩).ackSerial = 7 ∧
    (⟨TermRegResp, "013912345678", 0⟩ : Head).SerialNum = 0 :=
  ⟨rfl, rfl,
    response_body_serial Handler.termRegister sampleLib sampleServices "10.0.0.1:9000"
      registerFrame ⟨TermRegister, "013912345678", 7⟩
      ⟨⟨TermRegResp, "013912345678", 0⟩, .m8100 ⟨7, M8100TermRegistered, "123123"⟩⟩ rfl rfl⟩

/-! ## Heartbeat -/

/-- Every decoded heartbeat is answered with `M8001Success`, and the heartbeat
store is set once, under the key `strconv.Itoa` of the serial number of the
message, with a time-to-live of half an hour. -/
theorem termHeartbeat_effects (L : Lib) (addr : String) (b : Bytes) (h : Head)
    (hdec : L.DecodeHead b = .ok h) :
    (termHeartbeat L addr b).effects.filter Effect.isHeartBeat
      = [Effect.heartBeatSet (Itoa h.SerialNum) (30 * 60 * 1000000000)] ∧
    (termHeartbeat L addr b).mr
      = some ⟨⟨PlatformCommResp, h.Phone, 0⟩, .m8001 ⟨h.MsgID, h.SerialNum, M8001Success⟩⟩ := by
  have hh : Hour / 2 = 30 * 60 * 1000000000 := by norm_num
  simp [termHeartbeat, hdec, Effect.isHeartBeat, NewPlantFormMsg, Head.zero, Head.SetID,
    Head.SetPhone, M8001.zero, M8001.SetMsgID, M8001.SetSerialNumber, M8001.SetResult, hh]

/-- Claim C4, the code at the failing input. Two heartbeats of the terminal
with phone `"013912345678"`, serial numbers 1 and 2, set two different entries
of the heartbeat store, keyed `"1"` and `"2"`; a heartbeat of another terminal,
phone `"013900000001"`, serial number 1, sets the entry `"1"` of the first
terminal.  The key is the serial number of the message, not the phone number.
The time-to-live is 30 minutes in all three. -/
theorem termHeartbeat_key_is_serial :
    (termHeartbeat sampleLib "10.0.0.1:9000" (heartbeatFrame 1)).effects.filter Effect.isHeartBeat
      = [Effect.heartBeatSet "1" (30 * 60 * 1000000000)] ∧
    (termHeartbeat sampleLib "10.0.0.1:9000" (heartbeatFrame 2)).effects.filter Effect.isHeartBeat
      = [Effect.heartBeatSet "2" (30 * 60 * 1000000000)] ∧
    (termHeartbeat sampleLib "10.0.0.2:9000" (otherHeartbeatFrame 1)).effects.filter
        Effect.isHeartBeat
      = [Effect.heartBeatSet "1" (30 * 60 * 1000000000)] ∧
    sampleLib.DecodeHead (heartbeatFrame 1) = .ok ⟨TermHeartbeat, "013912345678", 1⟩ ∧
    sampleLib.DecodeHead (heartbeatFrame 2) = .ok ⟨TermHeartbeat, "013912345678", 2⟩ ∧
    sampleLib.DecodeHead (otherHeartbeatFrame 1) = .ok ⟨TermHeartbeat, "013900000001", 1⟩ :=
  ⟨rfl, rfl, rfl, rfl, rfl, rfl⟩

/-! ## Messages without a handler of their own -/

/-- Claim C5. Every input whose extracted message ID is none of `TermRegister`,
`TermAuth`, `TermHeartbeat`, `TermLocationRepose`, `TermLocationBatch` is
routed to `unknown`, whether or not it decodes; when its header decodes,
`unknown` returns the encoding of a platform general response with the phone
number of the request in the header and the message ID of the request and
result `M8001Success` in the body.  `unknown` never builds a response with
result `M8001Fail` and performs no heartbeat-store effect, whatever the
input. -/
theorem unknown_success (L : Lib) (S : Services) (addr : String) (b : Bytes)
    (hid : L.ExtractMsgID b ≠ TermRegister ∧ L.ExtractMsgID b ≠ TermAuth ∧
      L.ExtractMsgID b ≠ TermHeartbeat ∧ L.ExtractMsgID b ≠ TermLocationRepose ∧
      L.ExtractMsgID b ≠ TermLocationBatch) :
    dispatch L S addr b = unknown L addr b ∧
    (∀ h : Head, L.DecodeHead b = .ok h →
      ∃ (m : PlatMsg) (r : M8001),
        (dispatch L S addr b).mr = some m ∧
        (dispatch L S addr b).resp = (L.Encode m).1 ∧
        (dispatch L S addr b).err = (L.Encode m).2 ∧
        (unknown L addr b).mr = some m ∧
        (unknown L addr b).resp = (L.Encode m).1 ∧
        (unknown L addr b).err = (L.Encode m).2 ∧
        m.head.MsgID = PlatformCommResp ∧ m.head.Phone = h.Phone ∧
        m.body = .m8001 r ∧ r.MsgID = h.MsgID ∧ r.Result = M8001Success) ∧
    (∀ e : GoError, L.DecodeHead b = .error e →
      dispatch L S addr b = ⟨[], some e, none, []⟩) ∧
    (∀ (c : Bytes) (m : PlatMsg) (r : M8001),
      (unknown L addr c).mr = some m → m.body = .m8001 r → r.Result ≠ M8001Fail) ∧
    (∀ c : Bytes, (unknown L addr c).effects.filter Effect.isHeartBeat = []) := by
  obtain ⟨h1, h2, h3, h4, h5⟩ := hid
  have hroute : dispatch L S addr b = unknown L addr b := by
    simp [dispatch, h1, h2, h3, h4, h5]
  refine ⟨hroute, ?_, ?_, ?_, ?_⟩
  · intro h hdec
    refine ⟨⟨⟨PlatformCommResp, h.Phone, 0⟩, .m8001 ⟨h.MsgID, h.SerialNum, M8001Success⟩⟩,
      ⟨h.MsgID, h.SerialNum, M8001Success⟩, ?_⟩
    rw [hroute]
    simp [unknown, hdec, NewPlantFormMsg, Head.zero, Head.SetID, Head.SetPhone,
      M8001.zero, M8001.SetMsgID, M8001.SetSerialNumber, M8001.SetResult]
  · intro e hdec
    rw [hroute]
    simp [unknown, hdec]
  · intro c m r hm hb
    cases hc : L.DecodeHead c with
    | error e => simp [unknown, hc] at hm
    | ok hh =>
      simp only [unknown, hc, Option.some.injEq] at hm
      subst hm
      simp only [NewPlantFormMsg, PlatBody.m8001.injEq] at hb
      subst hb
      simp [M8001.SetResult]
  · intro c
    cases hc : L.DecodeHead c with
    | error e => simp [unknown, hc]
    | ok hh => simp [unknown, hc, Effect.isHeartBeat]

/-- Witness of C5 on a frame with message ID `0x0003` whose header decodes: it
is routed to `unknown` and answered with `M8001Success`. -/
theorem unknown_success_witness :
    (sampleLib.ExtractMsgID logoutFrame ≠ TermRegister ∧
      sampleLib.ExtractMsgID logoutFrame ≠ TermAuth ∧
      sampleLib.ExtractMsgID logoutFrame ≠ TermHeartbeat ∧
      sampleLib.ExtractMsgID logoutFrame ≠ TermLocationRepose ∧
      sampleLib.ExtractMsgID logoutFrame ≠ TermLocationBatch) ∧
    sampleLib.DecodeHead logoutFrame = .ok ⟨3, "013912345678", 13⟩ ∧
    dispatch sampleLib sampleServices "10.0.0.1:9000" logoutFrame
      = unknown sampleLib "10.0.0.1:9000" logoutFrame ∧
    (∃ (m : PlatMsg) (r : M8001),
      (dispatch sampleLib sampleServices "10.0.0.1:9000" logoutFrame).mr = some m ∧
      (dispatch sampleLib sampleServices "10.0.0.1:9000" logoutFrame).resp
        = (sampleLib.Encode m).1 ∧
      (dispatch sampleLib sampleServices "10.0.0.1:9000" logoutFrame).err
        = (sampleLib.Encode m).2 ∧
      (unknown sampleLib "10.0.0.1:9000" logoutFrame).mr = some m ∧
      (unknown sampleLib "10.0.0.1:9000" logoutFrame).resp = (sampleLib.Encode m).1 ∧
      (unknown sampleLib "10.0.0.1:9000" logoutFrame).err = (sampleLib.Encode m).2 ∧
      m.head.MsgID = PlatformCommResp ∧ m.head.Phone = "013912345678" ∧
      m.body = .m8001 r ∧ r.MsgID = 3 ∧ r.Result = M8001Success) :=
  have w := unknown_success sampleLib sampleServices "10.0.0.1:9000" logoutFrame (by decide)
  ⟨by decide, rfl, w.1, w.2.1 ⟨3, "013912345678", 13⟩ rfl⟩

/-- An input with message ID `0x0003` that does not decode (its checksum byte is
corrupt) is routed to `unknown` all the same, which returns the decoding error
and no bytes. -/
theorem unknown_routes_undecodable :
    sampleLib.ExtractMsgID (corruptFrame 0x0003 "013912345678" 13 []) = 3 ∧
    sampleLib.DecodeHead (corruptFrame 0x0003 "013912345678" 13 [])
      = .error (GoError.other 2) ∧
    dispatch sampleLib sampleServices "10.0.0.1:9000"
        (corruptFrame 0x0003 "013912345678" 13 [])
      = unknown sampleLib "10.0.0.1:9000" (corruptFrame 0x0003 "013912345678" 13 []) ∧
    dispatch sampleLib sampleServices "10.0.0.1:9000"
        (corruptFrame 0x0003 "013912345678" 13 [])
      = ⟨[], some (GoError.other 2), none, []⟩ :=
  ⟨rfl, rfl, rfl, rfl⟩

/-! ## Location reports -/

/-- After a successful decode, `termLocationBatch` answers `M8001Success`, and
`termPositionRepose` answers `M8001Success` when `All` succeeds and `M8001Fail`
when `All` fails. -/
theorem location_result_after_decode (L : Lib) (S : Services) (addr : String) (b : Bytes)
    (h : Head) (p : M0200) (q : M0704)
    (hpos : L.DecodeM0200 b = .ok (h, p)) (hbatch : L.DecodeM0704 b = .ok (h, q)) :
    (termLocationBatch L addr b).mr
      = some ⟨⟨PlatformCommResp, h.Phone, 0⟩, .m8001 ⟨h.MsgID, h.SerialNum, M8001Success⟩⟩ ∧
    (S.All.2 = none → (termPositionRepose L S addr b).mr
      = some ⟨⟨PlatformCommResp, h.Phone, 0⟩, .m8001 ⟨h.MsgID, h.SerialNum, M8001Success⟩⟩) ∧
    (S.All.2 ≠ none → (termPositionRepose L S addr b).mr
      = some ⟨⟨PlatformCommResp, h.Phone, 0⟩, .m8001 ⟨h.MsgID, h.SerialNum, M8001Fail⟩⟩) := by
  refine ⟨?_, ?_, ?_⟩
  · simp [termLocationBatch, hbatch, NewPlantFormMsg, Head.zero, Head.SetID, Head.SetPhone,
      M8001.zero, M8001.SetMsgID, M8001.SetSerialNumber, M8001.SetResult]
  · intro hall
    simp [termPositionRepose, hpos, hall, NewPlantFormMsg, Head.zero, Head.SetID,
      Head.SetPhone, M8001.zero, M8001.SetMsgID, M8001.SetSerialNumber, M8001.SetResult]
  · intro hall
    cases he : S.All.2 with
    | none => exact absurd he hall
    | some e =>
      simp [termPositionRepose, hpos, he, NewPlantFormMsg, Head.zero, Head.SetID,
        Head.SetPhone, M8001.zero, M8001.SetMsgID, M8001.SetSerialNumber, M8001.SetResult]

/-- A location handler whose decoding step fails returns the decoding error and
no response: no message is built or encoded and the returned bytes are empty. -/
theorem location_decode_error (L : Lib) (S : Services) (addr : String) (b : Bytes)
    (e f : GoError)
    (hpos : L.DecodeM0200 b = .error e) (hbatch : L.DecodeM0704 b = .error f) :
    termPositionRepose L S addr b = ⟨[], some e, none, []⟩ ∧
    termLocationBatch L addr b = ⟨[], some f, none, []⟩ := by
  simp [termPositionRepose, termLocationBatch, hpos, hbatch]

/-- Claim C6, the code at the failing input. A location report and a location
batch whose checksum byte is corrupt fail to decode; both handlers return the
decoding error with empty bytes and build no response, so no platform general
response with result `M8001Fail` is emitted. -/
theorem location_decode_failure_no_response :
    sampleLib.DecodeM0200 (corruptFrame TermLocationRepose "013912345678" 11 [0, 0, 0, 0])
      = .error (GoError.other 2) ∧
    termPositionRepose sampleLib sampleServices "10.0.0.1:9000"
        (corruptFrame TermLocationRepose "013912345678" 11 [0, 0, 0, 0])
      = ⟨[], some (GoError.other 2), none, []⟩ ∧
    sampleLib.DecodeM0704 (corruptFrame TermLocationBatch "013912345678" 12 [0, 1, 0])
      = .error (GoError.other 2) ∧
    termLocationBatch sampleLib "10.0.0.1:9000"
        (corruptFrame TermLocationBatch "013912345678" 12 [0, 1, 0])
      = ⟨[], some (GoError.other 2), none, []⟩ :=
  ⟨rfl, rfl, rfl, rfl⟩

/-! ## The read loop -/

/-- Every handler reply is well formed: the handlers never touch the socket, and
they return either the output of `Encode` or empty bytes with an error. -/
theorem dispatch_wellFormed (L : Lib) (S : Services) (addr : String) (b : Bytes) :
    (dispatch L S addr b).WellFormed L := by
  have hfilter : ∀ l : List Platform,
      List.filter Effect.isSocket (l.map fun p => Effect.print (Console.text p.Host)) = [] := by
    intro l
    induction l with
    | nil => rfl
    | cons p l ih => simp [List.filter, Effect.isSocket]
  unfold dispatch
  simp only []
  split_ifs
  · -- termRegister
    cases hd : L.DecodeM0100 b with
    | error e => simp [Reply.WellFormed, termRegister, hd]
    | ok p =>
      obtain ⟨h0, body⟩ := p
      cases ht : L.TermID body with
      | error e => simp [Reply.WellFormed, termRegister, hd, ht]
      | ok sn =>
        by_cases hg : S.GetBySN sn ≠ some GoError.ErrRecordNotFound ∧ S.GetBySN sn ≠ none
        · have hg2 := hg.2
          simp [Reply.WellFormed, termRegister, hd, ht, hg, hg2]
        · simp [Reply.WellFormed, termRegister, hd, ht, hg, Effect.isSocket]
  · -- termAuth
    cases hd : L.DecodeM0102 b with
    | error e => simp [Reply.WellFormed, termAuth, hd]
    | ok p => simp [Reply.WellFormed, termAuth, hd, Effect.isSocket]
  · -- termHeartbeat
    cases hd : L.DecodeHead b with
    | error e => simp [Reply.WellFormed, termHeartbeat, hd]
    | ok h0 => simp [Reply.WellFormed, termHeartbeat, hd, Effect.isSocket]
  · -- termPositionRepose
    cases hd : L.DecodeM0200 b with
    | error e => simp [Reply.WellFormed, termPositionRepose, hd]
    | ok p =>
      cases he : S.All.2 <;>
        simp [Reply.WellFormed, termPositionRepose, hd, he, List.filter_append, hfilter,
          Effect.isSocket]
  · -- termLocationBatch
    cases hd : L.DecodeM0704 b with
    | error e => simp [Reply.WellFormed, termLocationBatch, hd]
    | ok p => simp [Reply.WellFormed, termLocationBatch, hd, Effect.isSocket]
  · -- unknown
    cases hd : L.DecodeHead b with
    | error e => simp [Reply.WellFormed, unknown, hd]
    | ok h0 => simp [Reply.WellFormed, unknown, hd, Effect.isSocket]

/-- The console line of an error is no socket effect. -/
theorem printIfErr_not_socket (e : Option GoError) :
    (printIfErr e).filter Effect.isSocket = [] := by
  cases e <;> rfl

/-- A round whose read does not report `io.EOF` does not end the loop: the run
ends the way the run on the remaining rounds ends. -/
theorem handleConnect_exit_cons (L : Lib) (S : Services) (addr : String) (r : Round)
    (rest : List Round) (hne : r.err ≠ some GoError.EOF) :
    (handleConnect L S addr (r :: rest)).exit = (handleConnect L S addr rest).exit := by
  by_cases hz : r.data.length = 0 <;> simp [handleConnect, hne, hz]

/-- The loop returns exactly when some read of the script reports `io.EOF`, and
then it returns `io.EOF`; otherwise it is reading again. -/
theorem handleConnect_exit (L : Lib) (S : Services) (addr : String) (script : List Round) :
    ((∃ r ∈ script, r.err = some GoError.EOF) →
      (handleConnect L S addr script).exit = .returned (some GoError.EOF)) ∧
    ((∀ r ∈ script, r.err ≠ some GoError.EOF) →
      (handleConnect L S addr script).exit = .reading) := by
  induction script with
  | nil => exact ⟨fun ⟨r, hr, _⟩ => by simp at hr, fun _ => rfl⟩
  | cons r rest ih =>
    by_cases he : r.err = some GoError.EOF
    · refine ⟨fun _ => by simp [handleConnect, he], fun hall => ?_⟩
      exact absurd he (hall r (List.mem_cons_self r rest))
    · rw [handleConnect_exit_cons L S addr r rest he]
      refine ⟨fun ⟨x, hx, hxe⟩ => ih.1 ?_, fun hall => ih.2 ?_⟩
      · rcases List.mem_cons.mp hx with hxr | hxr
        · exact absurd (hxr ▸ hxe) he
        · exact ⟨x, hxr, hxe⟩
      · exact fun x hx => hall x (List.mem_cons_of_mem r hx)

/-- Counterexample to C7 as stated. A registration frame with a corrupt checksum
is a non-empty chunk; `termRegister` fails to decode it and returns no bytes, and
`handleConnect` calls `Write` once with these empty bytes: no write of the run
carries a non-empty encoded response. -/
theorem handleConnect_error_path_counterexample :
    corruptFrame TermRegister "013912345678" 7 (asciiBytes "T1") ≠ [] ∧
    dispatch sampleLib sampleServices "10.0.0.1:9000"
        (corruptFrame TermRegister "013912345678" 7 (asciiBytes "T1"))
      = ⟨[], some (GoError.other 2), none, []⟩ ∧
    (handleConnect sampleLib sampleServices "10.0.0.1:9000"
        [⟨corruptFrame TermRegister "013912345678" 7 (asciiBytes "T1"), none, none⟩]).trace
      = [Effect.read 17 none, Effect.print (.error (GoError.other 2)), Effect.write []] ∧
    ¬ (∃ bytes : Bytes, bytes ≠ [] ∧ Effect.write bytes ∈
        (handleConnect sampleLib sampleServices "10.0.0.1:9000"
          [⟨corruptFrame TermRegister "013912345678" 7 (asciiBytes "T1"), none, none⟩]).trace) := by
  refine ⟨by decide, rfl, rfl, ?_⟩
  rintro ⟨bytes, hne, hmem⟩
  have htrace : (handleConnect sampleLib sampleServices "10.0.0.1:9000"
      [⟨corruptFrame TermRegister "013912345678" 7 (asciiBytes "T1"), none, none⟩]).trace
      = [Effect.read 17 none, Effect.print (.error (GoError.other 2)), Effect.write []] := rfl
  rw [htrace] at hmem
  simp at hmem
  exact hne hmem

/-- Claim C7, amended. For every non-empty chunk whose read does not report
`io.EOF`, `handleConnect` performs, between this read and the next one, exactly
one `Write` on the connection, with the bytes the handler returned: the output
of `Encode` when the handler built a response, and no bytes when the handler
returned an error before building one. -/
theorem handleConnect_one_write (L : Lib) (S : Services) (addr : String) (r : Round)
    (rest : List Round) (hdata : r.data ≠ []) (hne : r.err ≠ some GoError.EOF) :
    ∃ turn : List Effect,
      (handleConnect L S addr (r :: rest)).trace
        = turn ++ (handleConnect L S addr rest).trace ∧
      turn.filter Effect.isSocket
        = [Effect.read r.data.length r.err, Effect.write (dispatch L S addr r.data).resp] ∧
      ((dispatch L S addr r.data).mr = none →
        (dispatch L S addr r.data).resp = [] ∧ (dispatch L S addr r.data).err ≠ none) ∧
      (∀ m : PlatMsg, (dispatch L S addr r.data).mr = some m →
        (dispatch L S addr r.data).resp = (L.Encode m).1) := by
  obtain ⟨hsock, hnone, hsome⟩ := dispatch_wellFormed L S addr r.data
  have hlen : r.data.length ≠ 0 := fun h => hdata (List.length_eq_zero.mp h)
  refine ⟨Effect.read r.data.length r.err :: printIfErr r.err
      ++ (dispatch L S addr r.data).effects ++ printIfErr (dispatch L S addr r.data).err
      ++ [Effect.write (dispatch L S addr r.data).resp] ++ printIfErr r.writeErr, ?_, ?_,
    hnone, fun m hm => (hsome m hm).1⟩
  · simp [handleConnect, hne, hlen]
  · simp [List.filter_append, List.filter_cons, Effect.isSocket, printIfErr_not_socket, hsock]

/-- Witness of the amended C7 on a heartbeat frame followed by a disconnect. -/
theorem handleConnect_one_write_witness :
    heartbeatFrame 1 ≠ [] ∧ (none : Option GoError) ≠ some GoError.EOF ∧
    (∃ turn : List Effect,
      (handleConnect sampleLib sampleServices "10.0.0.1:9000" disconnectScript).trace
        = turn ++ (handleConnect sampleLib sampleServices "10.0.0.1:9000"
            [⟨[], some GoError.EOF, none⟩]).trace ∧
      turn.filter Effect.isSocket
        = [Effect.read (heartbeatFrame 1).length none,
            Effect.write (dispatch sampleLib sampleServices "10.0.0.1:9000"
              (heartbeatFrame 1)).resp] ∧
      ((dispatch sampleLib sampleServices "10.0.0.1:9000" (heartbeatFrame 1)).mr = none →
        (dispatch sampleLib sampleServices "10.0.0.1:9000" (heartbeatFrame 1)).resp = [] ∧
        (dispatch sampleLib sampleServices "10.0.0.1:9000" (heartbeatFrame 1)).err ≠ none) ∧
      (∀ m : PlatMsg,
        (dispatch sampleLib sampleServices "10.0.0.1:9000" (heartbeatFrame 1)).mr = some m →
        (dispatch sampleLib sampleServices "10.0.0.1:9000" (heartbeatFrame 1)).resp
          = (sampleLib.Encode m).1)) :=
  ⟨by decide, by decide,
    handleConnect_one_write sampleLib sampleServices "10.0.0.1:9000"
      ⟨heartbeatFrame 1, none, none⟩ [⟨[], some GoError.EOF, none⟩] (by decide) (by decide)⟩

/-- Claim C8, the code at the failing input. A terminal sends one heartbeat and
disconnects: the second read reports `io.EOF`, `handleConnect` returns `io.EOF`
through its named result, the worker goroutine of `Serve` panics with it, and
`Serve`, whose listener was bound without error, ends in that panic. -/
theorem disconnect_panics :
    handleConnect sampleLib sampleServices "10.0.0.1:9000" disconnectScript
      = ⟨.returned (some GoError.EOF),
          [Effect.read 15 none,
            Effect.audit ⟨"10.0.0.1:9000", "013912345678", .general M8001Success, [0, 2],
              heartbeatFrame 1⟩,
            Effect.heartBeatSet "1" 1800000000000,
            Effect.write [0x7E, 0x80, 0x01, 0, 5, 0x01, 0x39, 0x12, 0x34, 0x56, 0x78, 0, 0,
              0, 1, 0, 2, 0, 183, 0x7E],
            Effect.read 0 (some GoError.EOF),
            Effect.print (.disconnected "10.0.0.1:9000")]⟩ ∧
    worker sampleLib sampleServices "10.0.0.1:9000" disconnectScript
      = some (.error GoError.EOF) ∧
    Serve sampleLib sampleServices none [.conn "10.0.0.1:9000" disconnectScript]
      = .panicked (.error GoError.EOF) :=
  ⟨rfl, rfl, rfl⟩

/-- Whatever the codec and the services, a connection one of whose reads
reports `io.EOF` makes its worker panic, and with it `Serve`. -/
theorem worker_panics_on_eof (L : Lib) (S : Services) (addr : String) (script : List Round)
    (heof : ∃ r ∈ script, r.err = some GoError.EOF) :
    worker L S addr script = some (.error GoError.EOF) ∧
    Serve L S none [.conn addr script] = .panicked (.error GoError.EOF) := by
  have hexit := (handleConnect_exit L S addr script).1 heof
  have hw : worker L S addr script = some (.error GoError.EOF) := by
    simp [worker, hexit]
  exact ⟨hw, by simp [Serve, acceptLoop, hw]⟩

/-- Counterexample to C9 as stated. The first read reports an error that is not
`io.EOF`; the loop prints it and reads again, and the heartbeat that follows is
dispatched and answered.  The run has not returned. -/
theorem handleConnect_read_error_counterexample :
    handleConnect sampleLib sampleServices "10.0.0.1:9000" readErrorScript
      = ⟨.reading,
          [Effect.read 0 (some (GoError.other 9)),
            Effect.print (.error (GoError.other 9)),
            Effect.read 15 none,
            Effect.audit ⟨"10.0.0.1:9000", "013912345678", .general M8001Success, [0, 2],
              heartbeatFrame 5⟩,
            Effect.heartBeatSet "5" 1800000000000,
            Effect.write [0x7E, 0x80, 0x01, 0, 5, 0x01, 0x39, 0x12, 0x34, 0x56, 0x78, 0, 0,
              0, 5, 0, 2, 0, 179, 0x7E]]⟩ :=
  rfl

/-- Claim C9, amended. The read loop of `handleConnect` returns exactly when a
read reports `io.EOF`, and then it returns `io.EOF`.  A round whose read does
not report `io.EOF` never ends the loop, whether the read reported another
error, was of length zero, or the handler or the write failed; a read of length
zero is skipped with no dispatch and no write. -/
theorem handleConnect_returns_iff_eof (L : Lib) (S : Services) (addr : String)
    (script : List Round) (r : Round) (rest : List Round) (hne : r.err ≠ some GoError.EOF) :
    ((handleConnect L S addr script).exit = .returned (some GoError.EOF)
      ↔ ∃ x ∈ script, x.err = some GoError.EOF) ∧
    ((handleConnect L S addr script).exit = .reading
      ↔ ∀ x ∈ script, x.err ≠ some GoError.EOF) ∧
    (∀ e : Option GoError, (handleConnect L S addr script).exit = .returned e →
      e = some GoError.EOF) ∧
    (handleConnect L S addr (r :: rest)).exit = (handleConnect L S addr rest).exit ∧
    (r.data = [] → (handleConnect L S addr (r :: rest)).trace
      = Effect.read 0 r.err :: printIfErr r.err ++ (handleConnect L S addr rest).trace) := by
  have hx := handleConnect_exit L S addr script
  by_cases hs : ∃ x ∈ script, x.err = some GoError.EOF
  · have h1 := hx.1 hs
    refine ⟨⟨fun _ => hs, fun _ => h1⟩, ⟨fun h => ?_, fun h => ?_⟩, fun e he => ?_,
      handleConnect_exit_cons L S addr r rest hne, fun hd => ?_⟩
    · rw [h1] at h
      exact absurd h (by simp)
    · obtain ⟨x, hxm, hxe⟩ := hs
      exact absurd hxe (h x hxm)
    · rw [h1] at he
      exact (Exit.returned.inj he).symm
    · simp [handleConnect, hne, hd]
  · have hall : ∀ x ∈ script, x.err ≠ some GoError.EOF :=
      fun x hxm hxe => hs ⟨x, hxm, hxe⟩
    have h2 := hx.2 hall
    refine ⟨⟨fun h => ?_, fun h => absurd h hs⟩, ⟨fun _ => hall, fun _ => h2⟩, fun e he => ?_,
      handleConnect_exit_cons L S addr r rest hne, fun hd => ?_⟩
    · rw [h2] at h
      exact absurd h (by simp)
    · rw [h2] at he
      exact absurd he (by simp)
    · simp [handleConnect, hne, hd]

/-- Witness of the amended C9: the script of a heartbeat and a disconnect, and a
round that reports a read error other than `io.EOF` with no data. -/
theorem handleConnect_returns_iff_eof_witness :
    (some (GoError.other 9) : Option GoError) ≠ some GoError.EOF ∧
    (handleConnect sampleLib sampleServices "10.0.0.1:9000" disconnectScript).exit
      = .returned (some GoError.EOF) ∧
    (handleConnect sampleLib sampleServices "10.0.0.1:9000"
        (⟨[], some (GoError.other 9), none⟩ :: disconnectScript)).exit
      = (handleConnect sampleLib sampleServices "10.0.0.1:9000" disconnectScript).exit ∧
    (handleConnect sampleLib sampleServices "10.0.0.1:9000"
        (⟨[], some (GoError.other 9), none⟩ :: disconnectScript)).trace
      = Effect.read 0 (some (GoError.other 9)) :: printIfErr (some (GoError.other 9))
        ++ (handleConnect sampleLib sampleServices "10.0.0.1:9000" disconnectScript).trace :=
  have w := handleConnect_returns_iff_eof sampleLib sampleServices "10.0.0.1:9000"
    disconnectScript ⟨[], some (GoError.other 9), none⟩ disconnectScript (by decide)
  ⟨by decide, w.1.mpr ⟨⟨[], some GoError.EOF, none⟩, by simp [disconnectScript], rfl⟩,
    w.2.2.2.1, w.2.2.2.2 rfl⟩

/-! ## Failures of the persistence services -/

/-- Counterexample to C10 as stated. With a database that is down, `GetBySN`
fails with an error that is not record-not-found, and `termRegister` returns
that error and no response: no bytes, no message built, nothing encoded. -/
theorem termRegister_lookup_error_counterexample :
    sampleLib.DecodeM0100 registerFrame
      = .ok (⟨TermRegister, "013912345678", 7⟩, ⟨[84, 49]⟩) ∧
    brokenServices.GetBySN "T1" = some (GoError.other 7) ∧
    termRegister sampleLib brokenServices "10.0.0.1:9000" registerFrame
      = ⟨[], some (GoError.other 7), none, []⟩ :=
  ⟨rfl, rfl, rfl⟩

/-- Claim C10, amended. When `All` fails, `termPositionRepose` still builds and
encodes a response for every location frame that decodes, with result
`M8001Fail`, whatever `GetBySN` does.  When `GetBySN` fails with an error other
than record-not-found, `termRegister` returns that error and no response,
whatever `All` does.  Each half has its own hypotheses only. -/
theorem collaborator_failure (L : Lib) (S : Services) (addr : String) :
    (∀ (b : Bytes) (h : Head) (body : M0100) (sn : String) (e : GoError),
      L.DecodeM0100 b = .ok (h, body) → L.TermID body = .ok sn →
      S.GetBySN sn = some e → e ≠ GoError.ErrRecordNotFound →
      termRegister L S addr b = ⟨[], some e, none, []⟩) ∧
    (∀ (c : Bytes) (g : Head) (p : M0200),
      L.DecodeM0200 c = .ok (g, p) → S.All.2 ≠ none →
      ∃ (m : PlatMsg) (r : M8001),
        (termPositionRepose L S addr c).mr = some m ∧
        (termPositionRepose L S addr c).resp = (L.Encode m).1 ∧
        (termPositionRepose L S addr c).err = (L.Encode m).2 ∧
        m.head.MsgID = PlatformCommResp ∧ m.head.Phone = g.Phone ∧
        m.body = .m8001 r ∧ r.MsgID = g.MsgID ∧ r.SerialNumber = g.SerialNum ∧
        r.Result = M8001Fail) := by
  refine ⟨?_, ?_⟩
  · intro b h body sn e hreg hid hlook hother
    simp [termRegister, hreg, hid, hlook, hother]
  · intro c g p hloc hall
    cases he : S.All.2 with
    | none => exact absurd he hall
    | some x =>
      refine ⟨⟨⟨PlatformCommResp, g.Phone, 0⟩, .m8001 ⟨g.MsgID, g.SerialNum, M8001Fail⟩⟩,
        ⟨g.MsgID, g.SerialNum, M8001Fail⟩, ?_⟩
      simp [termPositionRepose, hloc, he, NewPlantFormMsg, Head.zero, Head.SetID,
        Head.SetPhone, M8001.zero, M8001.SetMsgID, M8001.SetSerialNumber, M8001.SetResult]

/-- Witness of the amended C10, each half with services that fail in that call
only: `lookupDownServices` for `termRegister` (its `All` succeeds) and
`listDownServices` for `termPositionRepose` (its `GetBySN` succeeds). -/
theorem collaborator_failure_witness :
    lookupDownServices.GetBySN "T1" = some (GoError.other 7) ∧
    lookupDownServices.All.2 = none ∧
    termRegister sampleLib lookupDownServices "10.0.0.1:9000" registerFrame
      = ⟨[], some (GoError.other 7), none, []⟩ ∧
    listDownServices.GetBySN "T1" = none ∧
    listDownServices.All.2 ≠ none ∧
    (∃ (m : PlatMsg) (r : M8001),
      (termPositionRepose sampleLib listDownServices "10.0.0.1:9000" locationFrame).mr
        = some m ∧
      (termPositionRepose sampleLib listDownServices "10.0.0.1:9000" locationFrame).resp
        = (sampleLib.Encode m).1 ∧
      (termPositionRepose sampleLib listDownServices "10.0.0.1:9000" locationFrame).err
        = (sampleLib.Encode m).2 ∧
      m.head.MsgID = PlatformCommResp ∧ m.head.Phone = "013912345678" ∧
      m.body = .m8001 r ∧ r.MsgID = TermLocationRepose ∧ r.SerialNumber = 11 ∧
      r.Result = M8001Fail) :=
  ⟨rfl, rfl,
    (collaborator_failure sampleLib lookupDownServices "10.0.0.1:9000").1 registerFrame
      ⟨TermRegister, "013912345678", 7⟩ ⟨[84, 49]⟩ "T1" (GoError.other 7) rfl rfl rfl
      (by decide),
    rfl, by decide,
    (collaborator_failure sampleLib listDownServices "10.0.0.1:9000").2 locationFrame
      ⟨TermLocationRepose, "013912345678", 11⟩ ⟨[0, 0, 0, 0]⟩ rfl (by decide)⟩

end Jtt808Gateway
